import Mathlib

/-!
Verification development for the `supportagent` workflow orchestrator.

The Python sources (`state_manager.py`, `config.py`, `mcp_client.py`,
`stage_nodes.py`, `langgraph_agent.py`) are shallowly embedded below:

* Python values flowing through ability contexts/results are modelled by the
  inductive type `Val` (strings, numbers as exact rationals, booleans, lists,
  dicts as insertion-ordered association lists, `None`).
* `AgentState` mirrors the dataclass of `state_manager.py`; each `StateManager`
  method becomes a state-transformer `AgentState → ... → AgentState`.  Calls to
  `datetime.now()` are abstracted as an ambient tick counter `now : Nat`
  supplied by the caller (real time is not modelled; no verified property
  inspects timestamps).
* Ability handlers (`mcp_client.py`) become pure functions
  `Dict → Nat → Except PyExc Dict`; Python exception propagation is modelled
  with `Except`, where `PyExc.mcpClientError` stands for the `MCPClientError`
  class and `PyExc.pythonError` for every other exception type.  The stage
  executor is parameterised by a handler table (`HandlerOracle`) so that
  properties quantifying over possible handler outcomes (including raised
  exceptions) can be stated; `realHandlers` is the table translated from
  `mcp_client.py`.
-/

namespace SupportAgent

/-- Model of a Python runtime value as used by this code base. Dicts are
insertion-ordered association lists (Python dict semantics).  `vNum` is a
Python `int`; `vFloat a b` is the exact rational value `a / b` of one of the
code's float-producing divisions (these values are stored in result records
but never drive control flow, and no verified property reads them). -/
inductive Val where
  | vStr : String → Val
  | vNum : Int → Val
  | vFloat : Int → Int → Val
  | vBool : Bool → Val
  | vList : List Val → Val
  | vDict : List (String × Val) → Val
  | vNone : Val

/-- A Python dict with string keys. -/
abbrev Dict := List (String × Val)

/-- First-occurrence association lookup (Python dict keys are unique, so the
first occurrence is the only one on dicts built by this development). -/
def dlookup {α : Type} : List (String × α) → String → Option α
  | [], _ => none
  | kv :: rest, key => if kv.1 = key then some kv.2 else dlookup rest key

/-- `d[k] = v` on an insertion-ordered dict: replace the entry in place if the
key is present, else append at the end (Python dict assignment). -/
def dictInsert {α : Type} : List (String × α) → String → α → List (String × α)
  | [], k, v => [(k, v)]
  | kv :: rest, k, v =>
      if kv.1 = k then (k, v) :: rest else kv :: dictInsert rest k v

/-- `d.update(m)`: assign every entry of `m` into `d`, in order
(last-write-wins per key). -/
def dictUpdate {α : Type} (d m : List (String × α)) : List (String × α) :=
  m.foldl (fun acc kv => dictInsert acc kv.1 kv.2) d

/-- Key list of a dict (`list(d.keys())`). -/
def dkeys {α : Type} (d : List (String × α)) : List String :=
  d.map Prod.fst

/-- `d.get(k, default)`. -/
def dget (d : Dict) (k : String) (default : Val) : Val :=
  (dlookup d k).getD default

/-- `d.get(k)` (missing key gives `None`). -/
def dgetOpt (d : Dict) (k : String) : Val :=
  (dlookup d k).getD .vNone

/-- Python truthiness for the value forms appearing in this code base. -/
def pyTruthy : Val → Bool
  | .vStr s => s ≠ ""
  | .vNum q => q ≠ 0
  | .vFloat a _ => a ≠ 0
  | .vBool b => b
  | .vList l => !l.isEmpty
  | .vDict d => !d.isEmpty
  | .vNone => false

/-- Coerce a value that the source uses as a string (the translated call
sites only ever receive strings there). -/
def asStr : Val → String
  | .vStr s => s
  | _ => ""

/-- Coerce a value that the source uses as an integer (every translated call
site that reads a number reads a Python `int`). -/
def asNum : Val → Int
  | .vNum q => q
  | _ => 0

/-- Coerce a value that the source uses as a bool. -/
def asBool : Val → Bool
  | .vBool b => b
  | _ => false

/-- Coerce a value that the source iterates over as a list. -/
def asList : Val → List Val
  | .vList l => l
  | _ => []

/-- Coerce a value that the source uses as a dict. -/
def asDict : Val → Dict
  | .vDict d => d
  | _ => []

/-- `str.lower()` (ASCII, which is all the embedded literals use). -/
def pyLower (s : String) : String :=
  String.mk (s.data.map Char.toLower)

/-- `str.strip()`. -/
def pyStrip (s : String) : String :=
  String.mk (((s.toList.dropWhile Char.isWhitespace).reverse.dropWhile
    Char.isWhitespace).reverse)

/-- Accumulator-based whitespace splitter (`cur` holds the current word,
reversed). -/
def pySplitAux (cur : List Char) : List Char → List String
  | [] => if cur.isEmpty then [] else [String.mk cur.reverse]
  | c :: rest =>
      if c.isWhitespace then
        if cur.isEmpty then pySplitAux [] rest
        else String.mk cur.reverse :: pySplitAux [] rest
      else pySplitAux (c :: cur) rest

/-- `str.split()` with no argument: split on whitespace, dropping empties. -/
def pySplit (s : String) : List String :=
  pySplitAux [] s.data

/-- Whether `needle` occurs as a contiguous block in the scanned list. -/
def containsAux (needle : List Char) : List Char → Bool
  | [] => needle.isEmpty
  | c :: rest => List.isPrefixOf needle (c :: rest) || containsAux needle rest

/-- Python `sub in s` substring test. -/
def strContains (s sub : String) : Bool :=
  containsAux sub.data s.data

/-- Python `max(l)` guarded by `if l else 0`, as written at both source call
sites (`export_final_payload`, `_handle_escalation_decision`). -/
def pyMaxOr0 : List Int → Int
  | [] => 0
  | x :: xs => xs.foldl max x

/-- Word character of the regex `\b` boundary (`[A-Za-z0-9_]`). -/
def isWordChar (c : Char) : Bool :=
  c.isAlphanum || c = '_'

/-- Whether the character left of a digit run satisfies `\b` (start of string
or non-word character). -/
def nonWordOpt : Option Char → Bool
  | none => true
  | some c => !isWordChar c

/-- Scanner for `re.findall(r'\b\d{6,}\b', s)`: collects maximal digit runs of
length at least 6 whose neighbours are non-word characters or string ends.
`before` is the character just before the current digit run, `run` the digits
collected so far. -/
def accountNumScan (before : Option Char) (run : List Char) :
    List Char → List String
  | [] =>
      if run.length ≥ 6 && nonWordOpt before then [String.mk run] else []
  | c :: rest =>
      if c.isDigit then
        accountNumScan before (run ++ [c]) rest
      else
        (if run.length ≥ 6 && nonWordOpt before && !isWordChar c then
          [String.mk run] else []) ++ accountNumScan (some c) [] rest

/-- `re.findall(r'\b\d{6,}\b', s)` from `_handle_extract_entities`. -/
def findAccountNumbers (s : String) : List String :=
  accountNumScan none [] s.toList

/-! ## State store (`state_manager.py`) -/

/-- One entry of `processing_log` (`StateManager.log_event`). -/
structure LogEntry where
  timestamp : Nat
  stage : String
  event_type : String
  details : Dict

/-- The `AgentState` dataclass: central mutable state.  Field defaults match
the dataclass defaults (`current_stage = "INTAKE"`, empty collections). -/
structure AgentState where
  customer_name : String := ""
  email : String := ""
  query : String := ""
  priority : String := ""
  ticket_id : String := ""
  current_stage : String := "INTAKE"
  stage_history : List String := []
  entities : Dict := []
  normalized_fields : Dict := []
  enriched_data : Dict := []
  kb_results : List Dict := []
  solutions : List Dict := []
  solution_scores : List Int := []
  escalation_required : Bool := false
  escalation_reason : String := ""
  actions_taken : List String := []
  clarification_questions : List String := []
  human_responses : List String := []
  generated_response : String := ""
  created_at : Nat := 0
  updated_at : Nat := 0
  processing_log : List LogEntry := []

/-- `StateManager.log_event`: append one entry stamped with the current
stage. -/
def log_event (s : AgentState) (now : Nat) (event_type : String)
    (details : Dict) : AgentState :=
  { s with processing_log :=
      s.processing_log ++ [⟨now, s.current_stage, event_type, details⟩] }

/-- String-valued request input (`input_data`); the external interface requires
all five fields to be strings. -/
abbrev InputData := List (String × String)

/-- `input_data.get(k, default)` for the string-valued request input. -/
def iget (i : InputData) (k default : String) : String :=
  (dlookup i k).getD default

/-- `StateManager.initialize_state`. -/
def initialize_state (s : AgentState) (now : Nat) (input_data : InputData) :
    AgentState :=
  let s := { s with
    customer_name := iget input_data "customer_name" ""
    email := iget input_data "email" ""
    query := iget input_data "query" ""
    priority := iget input_data "priority" "medium"
    ticket_id := iget input_data "ticket_id" "" }
  log_event s now "STATE_INITIALIZED"
    [("input_keys", .vList (input_data.map (fun kv => .vStr kv.1)))]

/-- `StateManager.update_stage`: push the (truthy) previous current stage into
history, set the new stage, refresh `updated_at`, log the transition. -/
def update_stage (s : AgentState) (now : Nat) (stage_name : String) :
    AgentState :=
  let s :=
    if s.current_stage ≠ "" then
      { s with stage_history := s.stage_history ++ [s.current_stage] }
    else s
  let s := { s with current_stage := stage_name, updated_at := now }
  log_event s now "STAGE_UPDATED"
    [("from", match s.stage_history.getLast? with
        | some x => .vStr x
        | none => .vNone),
     ("to", .vStr stage_name)]

/-- `StateManager.update_entities`. -/
def update_entities (s : AgentState) (now : Nat) (entities : Dict) :
    AgentState :=
  let s := { s with entities := dictUpdate s.entities entities }
  log_event s now "ENTITIES_UPDATED"
    [("entities", .vList ((dkeys entities).map .vStr))]

/-- `StateManager.update_normalized_fields`. -/
def update_normalized_fields (s : AgentState) (now : Nat) (fields : Dict) :
    AgentState :=
  let s := { s with normalized_fields := dictUpdate s.normalized_fields fields }
  log_event s now "FIELDS_NORMALIZED"
    [("fields", .vList ((dkeys fields).map .vStr))]

/-- `StateManager.add_enriched_data`. -/
def add_enriched_data (s : AgentState) (now : Nat) (data : Dict) : AgentState :=
  let s := { s with enriched_data := dictUpdate s.enriched_data data }
  log_event s now "DATA_ENRICHED"
    [("data_types", .vList ((dkeys data).map .vStr))]

/-- `StateManager.add_kb_result`. -/
def add_kb_result (s : AgentState) (now : Nat) (result : Dict) : AgentState :=
  let s := { s with kb_results := s.kb_results ++ [result] }
  log_event s now "KB_RESULT_ADDED"
    [("result_id", dget result "id" (.vStr "unknown"))]

/-- `StateManager.add_solution`. -/
def add_solution (s : AgentState) (now : Nat) (solution : Dict) (score : Int) :
    AgentState :=
  let s := { s with
    solutions := s.solutions ++ [solution]
    solution_scores := s.solution_scores ++ [score] }
  log_event s now "SOLUTION_ADDED"
    [("score", .vNum score),
     ("solution_id", dget solution "id" (.vStr "unknown"))]

/-- `StateManager.set_escalation`. -/
def set_escalation (s : AgentState) (now : Nat) (required : Bool)
    (reason : String) : AgentState :=
  let s := { s with escalation_required := required,
                    escalation_reason := reason }
  log_event s now "ESCALATION_SET"
    [("required", .vBool required), ("reason", .vStr reason)]

/-- `StateManager.add_clarification_question`. -/
def add_clarification_question (s : AgentState) (now : Nat)
    (question : String) : AgentState :=
  let s := { s with
    clarification_questions := s.clarification_questions ++ [question] }
  log_event s now "CLARIFICATION_ADDED" [("question", .vStr question)]

/-- `StateManager.add_human_response`. -/
def add_human_response (s : AgentState) (now : Nat) (response : String) :
    AgentState :=
  let s := { s with human_responses := s.human_responses ++ [response] }
  log_event s now "HUMAN_RESPONSE_ADDED"
    [("response_length", .vNum response.length)]

/-- `StateManager.set_generated_response`. -/
def set_generated_response (s : AgentState) (now : Nat) (response : String) :
    AgentState :=
  let s := { s with generated_response := response }
  log_event s now "RESPONSE_GENERATED"
    [("response_length", .vNum response.length)]

/-- `StateManager.add_action`. -/
def add_action (s : AgentState) (now : Nat) (action : String) : AgentState :=
  let s := { s with actions_taken := s.actions_taken ++ [action] }
  log_event s now "ACTION_EXECUTED" [("action", .vStr action)]

/-! ## Final payload (`StateManager.export_final_payload`) -/

/-- `input` section of the final payload. -/
structure PayloadInput where
  customer_name : String
  email : String
  query : String
  priority : String
  ticket_id : String

/-- `processing` section of the final payload. -/
structure PayloadProcessing where
  stages_completed : List String
  entities_extracted : Dict
  enriched_data : Dict
  knowledge_base_results : Nat
  solutions_evaluated : Nat

/-- `decisions` section of the final payload. -/
structure PayloadDecisions where
  escalation_required : Bool
  escalation_reason : String
  best_solution_score : Int

/-- `output` section of the final payload. -/
structure PayloadOutput where
  generated_response : String
  actions_executed : List String
  final_status : String

/-- `metadata` section of the final payload. -/
structure PayloadMetadata where
  created_at : Nat
  completed_at : Nat
  processing_log : List LogEntry

/-- The final structured payload returned by `export_final_payload`. -/
structure Payload where
  input : PayloadInput
  processing : PayloadProcessing
  decisions : PayloadDecisions
  output : PayloadOutput
  metadata : PayloadMetadata

/-- The value computed by `StateManager.export_final_payload`, a projection of
the current state. -/
def exportFinalPayload (s : AgentState) : Payload where
  input :=
    { customer_name := s.customer_name
      email := s.email
      query := s.query
      priority := s.priority
      ticket_id := s.ticket_id }
  processing :=
    { stages_completed := s.stage_history ++ [s.current_stage]
      entities_extracted := s.entities
      enriched_data := s.enriched_data
      knowledge_base_results := s.kb_results.length
      solutions_evaluated := s.solutions.length }
  decisions :=
    { escalation_required := s.escalation_required
      escalation_reason := s.escalation_reason
      best_solution_score := pyMaxOr0 s.solution_scores }
  output :=
    { generated_response := s.generated_response
      actions_executed := s.actions_taken
      final_status := if s.escalation_required then "escalated" else "resolved" }
  metadata :=
    { created_at := s.created_at
      completed_at := s.updated_at
      processing_log := s.processing_log }

/-- `export_final_payload` as a state-transformer method, the uniform reading
used for every `StateManager` method: the second component is `self.state`
after executing the body.  The Python body is a single `return` of a dict
literal that only reads `self.state`, so the state component is the input
state unchanged. -/
def exportFinalPayloadM (s : AgentState) : Payload × AgentState :=
  (exportFinalPayload s, s)

/-! ## Configuration (`config.py`) -/

/-- Backend groups (`MCPServer` enum). -/
inductive MCPServer where
  | common
  | atlas
deriving DecidableEq

/-- `MCPServer.value`. -/
def MCPServer.value : MCPServer → String
  | .common => "common"
  | .atlas => "atlas"

/-- Stage execution modes (`StageMode` enum). -/
inductive StageMode where
  | deterministic
  | non_deterministic
  | human
  | payload_only
deriving DecidableEq

/-- An `Ability` record. -/
structure Ability where
  name : String
  server : MCPServer
  description : String

/-- A `Stage` record. -/
structure Stage where
  name : String
  mode : StageMode
  abilities : List Ability
  description : String

/-- The fixed `STAGES` table of `config.py`. -/
def STAGES : List Stage := [
  ⟨"INTAKE", .payload_only,
    [⟨"accept_payload", .common, "Capture incoming request payload"⟩],
    "Accept and validate incoming customer request"⟩,
  ⟨"UNDERSTAND", .deterministic,
    [⟨"parse_request_text", .common,
        "Convert unstructured request to structured data"⟩,
     ⟨"extract_entities", .atlas, "Identify product, account, dates"⟩],
    "Parse and understand customer request"⟩,
  ⟨"PREPARE", .deterministic,
    [⟨"normalize_fields", .common, "Standardize dates, codes, IDs"⟩,
     ⟨"enrich_records", .atlas, "Add SLA, historical ticket info"⟩,
     ⟨"add_flags_calculations", .common, "Compute priority or SLA risk"⟩],
    "Normalize and enrich customer data"⟩,
  ⟨"ASK", .human,
    [⟨"clarify_question", .atlas, "Request missing information"⟩],
    "Ask clarifying questions if needed"⟩,
  ⟨"WAIT", .deterministic,
    [⟨"extract_answer", .atlas, "Wait and capture concise response"⟩,
     ⟨"store_answer", .common, "Update payload with response"⟩],
    "Wait for and process human responses"⟩,
  ⟨"RETRIEVE", .deterministic,
    [⟨"knowledge_base_search", .atlas, "Lookup KB or FAQ"⟩,
     ⟨"store_data", .common, "Attach retrieved info to payload"⟩],
    "Search knowledge base for solutions"⟩,
  ⟨"DECIDE", .non_deterministic,
    [⟨"solution_evaluation", .common, "Score potential solutions 1-100"⟩,
     ⟨"escalation_decision", .atlas, "Assign to human agent if score <90"⟩,
     ⟨"update_payload", .common, "Record decision outcomes"⟩],
    "Evaluate solutions and make escalation decisions"⟩,
  ⟨"UPDATE", .deterministic,
    [⟨"update_ticket", .atlas, "Modify status, fields, priority"⟩,
     ⟨"close_ticket", .atlas, "Mark issue resolved"⟩],
    "Update ticket status and information"⟩,
  ⟨"CREATE", .deterministic,
    [⟨"response_generation", .common, "Draft customer reply"⟩],
    "Generate customer response"⟩,
  ⟨"DO", .deterministic,
    [⟨"execute_api_calls", .atlas, "Trigger CRM/order system actions"⟩,
     ⟨"trigger_notifications", .atlas, "Notify customer"⟩],
    "Execute actions and send notifications"⟩,
  ⟨"COMPLETE", .payload_only,
    [⟨"output_payload", .common, "Print final structured payload"⟩],
    "Output final results"⟩]

/-! ## MCP clients (`mcp_client.py`) -/

/-- Python exceptions as they matter to the stage executor: `MCPClientError`
(the class defined in `mcp_client.py`, the only class the stage loops catch)
versus every other exception type. -/
inductive PyExc where
  | mcpClientError : String → PyExc
  | pythonError : String → PyExc
deriving DecidableEq

/-- A handler table: behaviour of `_handle_<name>` / `_default_handler`
dispatch on each client class, given the ability name, the call context and
the ambient clock.  Parameterising over this table lets properties quantify
over handler outcomes (including raised exceptions); `realHandlers` below is
the table translated from `mcp_client.py`, which never raises. -/
abbrev HandlerOracle := MCPServer → String → Dict → Nat → Except PyExc Dict

/-- The mutable fields of an `MCPClient` instance. -/
structure MCPClientSt where
  server_type : MCPServer
  connected : Bool

/-- `MCPClient.execute_ability`: connection precondition, backend-match
precondition, then dispatch to the named handler (falling back to the default
handler, which the oracle realises). -/
def execute_ability (client : MCPClientSt) (h : HandlerOracle) (ability : Ability)
    (context : Dict) (now : Nat) : Except PyExc Dict :=
  if !client.connected then
    .error (.mcpClientError
      ("Not connected to " ++ client.server_type.value ++ " server"))
  else if ability.server ≠ client.server_type then
    .error (.mcpClientError
      ("Ability " ++ ability.name ++ " belongs to " ++ ability.server.value ++
        ", not " ++ client.server_type.value))
  else
    h client.server_type ability.name context now

/-- `MCPClient._default_handler`. -/
def defaultHandler (ability_name : String) (server : MCPServer) (now : Nat) :
    Dict :=
  [("ability", .vStr ability_name),
   ("server", .vStr server.value),
   ("status", .vStr "completed"),
   ("timestamp", .vNum now),
   ("result", .vStr ("Executed " ++ ability_name ++ " successfully"))]

/-- Python `str(v)` rendering of a value, used only for `len(str(context))`
in `_handle_accept_payload`.  It matches CPython's rendering for the value
shapes that actually reach that call site (strings, integral numbers, bools,
`None`, lists, dicts); non-integral rationals would render differently from
floats, but no such value is ever measured and no verified property reads the
resulting length. -/
def reprVal : Val → String
  | .vStr s => "'" ++ s ++ "'"
  | .vNum q => toString q
  | .vFloat a b => toString a ++ "/" ++ toString b
  | .vBool b => if b then "True" else "False"
  | .vNone => "None"
  | .vList l =>
      "[" ++ String.intercalate ", " (l.attach.map fun v => reprVal v.1) ++ "]"
  | .vDict d =>
      "\x7b" ++ String.intercalate ", "
        (d.attach.map fun kv => "'" ++ kv.1.1 ++ "': " ++ reprVal kv.1.2) ++
        "\x7d"
decreasing_by
  · have h := List.sizeOf_lt_of_mem v.2
    have hc : sizeOf (Val.vList l) = 1 + sizeOf l := by simp
    omega
  · have h1 := List.sizeOf_lt_of_mem kv.2
    have h2 : sizeOf kv.1.2 < sizeOf kv.1 := by
      rcases kv.1 with ⟨a, b⟩; simp
    have hc : sizeOf (Val.vDict d) = 1 + sizeOf d := by simp
    omega

/-- `CommonMCPClient._handle_accept_payload`. -/
def handle_accept_payload (context : Dict) : Dict :=
  [("status", .vStr "accepted"),
   ("validated_fields", .vList ((dkeys context).map .vStr)),
   ("payload_size", .vNum (reprVal (.vDict context)).length)]

/-- The urgency keyword list of `_handle_parse_request_text`. -/
def urgencyWords : List String :=
  ["urgent", "emergency", "asap", "critical", "immediately"]

/-- `CommonMCPClient._handle_parse_request_text`. -/
def handle_parse_request_text (context : Dict) : Dict :=
  let query := asStr (dget context "query" (.vStr ""))
  let parsed_data : Dict :=
    [("intent", .vStr "support_request"),
     ("sentiment", .vStr "neutral"),
     ("urgency_keywords", .vList
        ((urgencyWords.filter fun w =>
            strContains (pyLower query) (pyLower w)).map .vStr)),
     ("word_count", .vNum (if query ≠ "" then (pySplit query).length else 0))]
  [("parsed_data", .vDict parsed_data),
   ("original_length", .vNum query.length),
   ("structured", .vBool true)]

/-- `CommonMCPClient._handle_normalize_fields`. -/
def handle_normalize_fields (context : Dict) : Dict :=
  let priority := pyLower (asStr (dget context "priority" (.vStr "medium")))
  let priority_level : Int :=
    if priority = "low" then 1
    else if priority = "medium" then 2
    else if priority = "high" then 3
    else if priority = "critical" then 4
    else 2
  let email := pyStrip (pyLower (asStr (dget context "email" (.vStr ""))))
  let ticket_id := asStr (dget context "ticket_id" (.vStr ""))
  let normalized : Dict :=
    [("priority_level", .vNum priority_level),
     ("email_normalized", .vStr email),
     ("ticket_format", .vStr
        (if ticket_id ≠ "" then "CS-" ++ ticket_id else "CS-UNKNOWN"))]
  [("normalized_fields", .vDict normalized),
   ("normalization_rules_applied", .vNum normalized.length)]

/-- `CommonMCPClient._handle_add_flags_calculations`. -/
def handle_add_flags_calculations (context : Dict) : Dict :=
  let priority_level := asNum (dget context "priority_level" (.vNum 2))
  let sla_risk_score := min (priority_level * 25) 100
  let query_length : Int := (asStr (dget context "query" (.vStr ""))).length
  -- `min(query_length / 10, 100)` with Python true division: the exact
  -- rational, kept as an un-normalised fraction
  let complexity_score : Int × Int :=
    if query_length ≤ 1000 then (query_length, 10) else (100, 1)
  let flags : Dict :=
    [("sla_risk_score", .vNum sla_risk_score),
     ("complexity_score", .vFloat complexity_score.1 complexity_score.2),
     ("auto_escalate", .vBool (sla_risk_score > 75)),
     ("requires_specialist", .vBool
        (complexity_score.1 > 50 * complexity_score.2))]
  [("calculated_flags", .vDict flags),
   ("risk_assessment", .vStr
      (if sla_risk_score > 75 then "high"
       else if sla_risk_score > 50 then "medium" else "low"))]

/-- `CommonMCPClient._handle_store_answer`. -/
def handle_store_answer (context : Dict) (now : Nat) : Dict :=
  [("stored", .vBool true),
   ("answer_length",
      .vNum (asStr (dget context "human_response" (.vStr ""))).length),
   ("storage_timestamp", .vNum now)]

/-- `CommonMCPClient._handle_store_data`. -/
def handle_store_data (context : Dict) (now : Nat) : Dict :=
  [("stored", .vBool true),
   ("data_points", .vNum (asList (dget context "kb_results" (.vList []))).length),
   ("storage_timestamp", .vNum now)]

/-- One `solutions` entry built by `_handle_solution_evaluation` for the
`i`-th knowledge-base result. -/
def evalSolution (query : String) (i : Nat) (result : Dict) : Dict :=
  let base_score : Int := 60 + (i : Int) * 5
  let title := pyLower (asStr (dget result "title" (.vStr "")))
  let relevance_boost : Int :=
    if (pySplit (pyLower query)).any (fun word => strContains title word)
    then 20 else 0
  let final_score := min (base_score + relevance_boost) 100
  [("id", .vStr ("sol_" ++ toString (i + 1))),
   ("title", dget result "title" (.vStr ("Solution " ++ toString (i + 1)))),
   ("score", .vNum final_score),
   ("confidence", .vFloat final_score 100),
   ("source", .vStr "knowledge_base")]

/-- `CommonMCPClient._handle_solution_evaluation`: score the top 3 KB results
(the query is lowercased before word matching, per the source). -/
def handle_solution_evaluation (context : Dict) : Dict :=
  let kb_results := (asList (dget context "kb_results" (.vList []))).map asDict
  let query := asStr (dget context "query" (.vStr ""))
  let solutions := ((kb_results.take 3).enum).map fun iv =>
    evalSolution query iv.1 iv.2
  let scores := solutions.map fun sol => asNum (dget sol "score" (.vNum 0))
  [("solutions", .vList (solutions.map .vDict)),
   ("best_score", .vNum (pyMaxOr0 scores)),
   ("evaluation_method", .vStr "relevance_based")]

/-- `CommonMCPClient._handle_update_payload`. -/
def handle_update_payload (now : Nat) : Dict :=
  [("updated", .vBool true),
   ("decision_recorded", .vBool true),
   ("update_timestamp", .vNum now)]

/-- `CommonMCPClient._handle_response_generation`. -/
def handle_response_generation (context : Dict) : Dict :=
  let customer_name := asStr (dget context "customer_name" (.vStr "Customer"))
  let solutions := (asList (dget context "solutions" (.vList []))).map asDict
  let response :=
    match solutions with
    | sol0 :: _ =>
        if asNum (dget sol0 "score" (.vNum 0)) ≥ 90 then
          "Dear " ++ customer_name ++
            ", I've found a solution to your inquiry. Based on our knowledge base, here's how we can help you resolve this issue."
        else if pyTruthy (dget context "escalation_required" (.vBool false)) then
          "Dear " ++ customer_name ++
            ", Thank you for contacting us. Your request has been forwarded to our specialist team who will get back to you within 24 hours."
        else
          "Dear " ++ customer_name ++
            ", Thank you for your inquiry. We're currently reviewing your request and will provide a detailed response soon."
    | [] =>
        if pyTruthy (dget context "escalation_required" (.vBool false)) then
          "Dear " ++ customer_name ++
            ", Thank you for contacting us. Your request has been forwarded to our specialist team who will get back to you within 24 hours."
        else
          "Dear " ++ customer_name ++
            ", Thank you for your inquiry. We're currently reviewing your request and will provide a detailed response soon."
  [("generated_response", .vStr response),
   ("response_type", .vStr "automated"),
   ("word_count", .vNum (pySplit response).length)]

/-- `CommonMCPClient._handle_output_payload`. -/
def handle_output_payload (now : Nat) : Dict :=
  [("output_generated", .vBool true),
   ("payload_complete", .vBool true),
   ("timestamp", .vNum now)]

/-- `AtlasMCPClient._handle_extract_entities`. -/
def handle_extract_entities (context : Dict) : Dict :=
  let query := asStr (dget context "query" (.vStr ""))
  let words := pySplit (pyLower query)
  let products := ["order", "account", "payment", "subscription", "service"]
  let entities : Dict :=
    [("products", .vList ((words.filter (products.contains ·)).map .vStr)),
     ("account_numbers", .vList ((findAccountNumbers query).map .vStr)),
     ("dates", .vList []),
     ("locations", .vList [])]
  [("extracted_entities", .vDict entities),
   ("confidence", .vFloat 85 100),
   ("extraction_method", .vStr "external_nlp")]

/-- `AtlasMCPClient._handle_enrich_records`. -/
def handle_enrich_records (context : Dict) : Dict :=
  let priority_level := asNum (dget context "priority_level" (.vNum 2))
  let enriched_data : Dict :=
    [("customer_tier", .vStr "standard"),
     ("previous_tickets", .vNum 3),
     ("avg_resolution_time", .vStr "24h"),
     ("sla_target", .vStr (if priority_level < 3 then "48h" else "24h")),
     ("account_status", .vStr "active"),
     ("last_contact", .vStr "2024-01-15")]
  [("enriched_data", .vDict enriched_data),
   ("data_sources", .vList
      [.vStr "customer_db", .vStr "ticket_history", .vStr "sla_matrix"]),
   ("enrichment_confidence", .vFloat 95 100)]

/-- `AtlasMCPClient._handle_clarify_question`. -/
def handle_clarify_question (context : Dict) : Dict :=
  let entities := asDict (dget context "extracted_entities" (.vDict []))
  let query := asStr (dget context "query" (.vStr ""))
  let questions : List String :=
    (if !pyTruthy (dgetOpt entities "account_numbers") then
      ["Could you please provide your account number?"] else []) ++
    (if strContains (pyLower query) "order" &&
        !(query.toList.any Char.isDigit) then
      ["What is your order number?"] else [])
  let questions :=
    if questions.isEmpty then
      ["Could you provide more details about your specific issue?"]
    else questions
  [("clarification_questions", .vList (questions.map .vStr)),
   ("question_count", .vNum questions.length),
   ("requires_human_input", .vBool true)]

/-- `AtlasMCPClient._handle_extract_answer`. -/
def handle_extract_answer (context : Dict) : Dict :=
  let human_response :=
    asStr (dget context "human_response" (.vStr "No response provided"))
  [("extracted_answer", .vStr human_response),
   ("answer_processed", .vBool true),
   ("contains_useful_info", .vBool (human_response.length > 10))]

/-- The canned result list of `_handle_knowledge_base_search`. -/
def cannedKbResults : List Dict := [
  [("id", .vStr "kb_001"),
   ("title", .vStr "How to track your order status"),
   ("content", .vStr "You can track your order by logging into your account..."),
   ("relevance", .vFloat 92 100),
   ("category", .vStr "orders")],
  [("id", .vStr "kb_002"),
   ("title", .vStr "Resolving payment issues"),
   ("content", .vStr "If you're experiencing payment problems..."),
   ("relevance", .vFloat 78 100),
   ("category", .vStr "payments")],
  [("id", .vStr "kb_003"),
   ("title", .vStr "Account access troubleshooting"),
   ("content", .vStr "For account access issues, please try..."),
   ("relevance", .vFloat 65 100),
   ("category", .vStr "account")]]

/-- `AtlasMCPClient._handle_knowledge_base_search`. -/
def handle_knowledge_base_search : Dict :=
  [("kb_results", .vList (cannedKbResults.map .vDict)),
   ("total_results", .vNum cannedKbResults.length),
   ("search_method", .vStr "semantic_search")]

/-- `AtlasMCPClient._handle_escalation_decision`: escalate iff the best score
among the solutions in the context is strictly below 90; priority tag "high"
iff the best score is strictly below 70. -/
def handle_escalation_decision (context : Dict) : Dict :=
  let solutions := (asList (dget context "solutions" (.vList []))).map asDict
  let best_score :=
    pyMaxOr0 (solutions.map fun sol => asNum (dget sol "score" (.vNum 0)))
  let escalate := best_score < 90
  let escalation_data : Dict :=
    [("escalation_required", .vBool escalate),
     ("reason", .vStr
        (if escalate then
          "Best solution score (" ++ toString best_score ++
            ") below threshold (90)"
         else "Sufficient solution found")),
     ("assigned_to", .vStr
        (if escalate then "specialist_team" else "automated_system")),
     ("priority", .vStr (if best_score < 70 then "high" else "medium"))]
  [("escalation_decision", .vDict escalation_data),
   ("decision_confidence", .vFloat 9 10),
   ("threshold_used", .vNum 90)]

/-- `AtlasMCPClient._handle_update_ticket`. -/
def handle_update_ticket (context : Dict) (now : Nat) : Dict :=
  let ticket_id := dget context "ticket_id" (.vStr "")
  let escalation_required := dget context "escalation_required" (.vBool false)
  let update_data : Dict :=
    [("ticket_id", ticket_id),
     ("status", .vStr
        (if pyTruthy escalation_required then "escalated" else "in_progress")),
     ("last_updated", .vNum now),
     ("updated_by", .vStr "langie_agent")]
  [("ticket_updated", .vBool true),
   ("update_data", .vDict update_data),
   ("external_system", .vStr "crm_system")]

/-- `AtlasMCPClient._handle_close_ticket`. -/
def handle_close_ticket (context : Dict) (now : Nat) : Dict :=
  [("ticket_closed", .vBool true),
   ("ticket_id", dget context "ticket_id" (.vStr "")),
   ("closure_timestamp", .vNum now),
   ("resolution_method", .vStr "automated")]

/-- `AtlasMCPClient._handle_execute_api_calls`. -/
def handle_execute_api_calls (context : Dict) : Dict :=
  let api_calls : List Dict :=
    (if pyTruthy (dgetOpt context "escalation_required") then
      [[("api", .vStr "notification_service"),
        ("action", .vStr "notify_specialist_team"),
        ("status", .vStr "success")]]
     else []) ++
    [[("api", .vStr "crm_system"),
      ("action", .vStr "update_customer_record"),
      ("status", .vStr "success")]]
  [("api_calls_executed", .vList (api_calls.map .vDict)),
   ("total_calls", .vNum api_calls.length),
   ("all_successful", .vBool true)]

/-- `AtlasMCPClient._handle_trigger_notifications`. -/
def handle_trigger_notifications (context : Dict) (now : Nat) : Dict :=
  let customer_email := dget context "email" (.vStr "")
  let notifications : List Dict :=
    [[("type", .vStr "email"),
      ("recipient", customer_email),
      ("subject", .vStr ("Re: Your Support Request " ++
        asStr (dget context "ticket_id" (.vStr "")))),
      ("status", .vStr "sent"),
      ("timestamp", .vNum now)]] ++
    (if asNum (dget context "priority_level" (.vNum 0)) > 3 then
      [[("type", .vStr "sms"),
        ("recipient", .vStr "customer_phone"),
        ("message", .vStr
          "Your support request has been received and is being processed."),
        ("status", .vStr "sent"),
        ("timestamp", .vNum now)]]
     else [])
  [("notifications_sent", .vList (notifications.map .vDict)),
   ("total_notifications", .vNum notifications.length),
   ("delivery_status", .vStr "all_sent")]

/-- Handler dispatch of `CommonMCPClient` (`hasattr` lookup of
`_handle_<name>`, falling back to `_default_handler`). -/
def commonHandlers (name : String) (context : Dict) (now : Nat) : Dict :=
  if name = "accept_payload" then handle_accept_payload context
  else if name = "parse_request_text" then handle_parse_request_text context
  else if name = "normalize_fields" then handle_normalize_fields context
  else if name = "add_flags_calculations" then
    handle_add_flags_calculations context
  else if name = "store_answer" then handle_store_answer context now
  else if name = "store_data" then handle_store_data context now
  else if name = "solution_evaluation" then handle_solution_evaluation context
  else if name = "update_payload" then handle_update_payload now
  else if name = "response_generation" then handle_response_generation context
  else if name = "output_payload" then handle_output_payload now
  else defaultHandler name .common now

/-- Handler dispatch of `AtlasMCPClient`. -/
def atlasHandlers (name : String) (context : Dict) (now : Nat) : Dict :=
  if name = "extract_entities" then handle_extract_entities context
  else if name = "enrich_records" then handle_enrich_records context
  else if name = "clarify_question" then handle_clarify_question context
  else if name = "extract_answer" then handle_extract_answer context
  else if name = "knowledge_base_search" then handle_knowledge_base_search
  else if name = "escalation_decision" then handle_escalation_decision context
  else if name = "update_ticket" then handle_update_ticket context now
  else if name = "close_ticket" then handle_close_ticket context now
  else if name = "execute_api_calls" then handle_execute_api_calls context
  else if name = "trigger_notifications" then
    handle_trigger_notifications context now
  else defaultHandler name .atlas now

/-- The handler table translated from `mcp_client.py`; the real handlers never
raise. -/
def realHandlers : HandlerOracle := fun server name context now =>
  match server with
  | .common => .ok (commonHandlers name context now)
  | .atlas => .ok (atlasHandlers name context now)

/-! ## Stage executor (`stage_nodes.py`) -/

/-- The two client instances owned by a `StageExecutor`. -/
structure Clients where
  common : MCPClientSt
  atlas : MCPClientSt

/-- `StageExecutor.get_client`. -/
def get_client (cl : Clients) : MCPServer → MCPClientSt
  | .common => cl.common
  | .atlas => cl.atlas

/-- Client pair after a successful `setup_clients`. -/
def connectedClients : Clients :=
  ⟨⟨.common, true⟩, ⟨.atlas, true⟩⟩

/-- Client pair on which `connect` was never called (or after
`cleanup_clients`). -/
def disconnectedClients : Clients :=
  ⟨⟨.common, false⟩, ⟨.atlas, false⟩⟩

/-- `StageExecutor._build_context`. -/
def buildContext (s : AgentState) : Dict :=
  [("customer_name", .vStr s.customer_name),
   ("email", .vStr s.email),
   ("query", .vStr s.query),
   ("priority", .vStr s.priority),
   ("ticket_id", .vStr s.ticket_id),
   ("priority_level", dget s.normalized_fields "priority_level" (.vNum 2)),
   ("extracted_entities", .vDict s.entities),
   ("enriched_data", .vDict s.enriched_data),
   ("kb_results", .vList (s.kb_results.map .vDict)),
   ("solutions", .vList (s.solutions.map .vDict)),
   ("escalation_required", .vBool s.escalation_required),
   ("human_responses", .vList (s.human_responses.map .vStr)),
   ("generated_response", .vStr s.generated_response),
   ("actions_taken", .vList (s.actions_taken.map .vStr))]

/-- The `for kb_result in kb_results` loop of
`_update_state_from_result`. -/
def kbAddLoop : AgentState → Nat → List Val → AgentState × Nat
  | s, c, [] => (s, c)
  | s, c, v :: rest => kbAddLoop (add_kb_result s c (asDict v)) (c + 1) rest

/-- `StageExecutor._update_state_from_result` (the closed ability-name →
state-setter mapping). -/
def update_state_from_result (ability : Ability) (result : Dict)
    (s : AgentState) (c : Nat) : AgentState × Nat :=
  if ability.name = "extract_entities" then
    (update_entities s c (asDict (dget result "extracted_entities" (.vDict []))),
      c + 1)
  else if ability.name = "normalize_fields" then
    (update_normalized_fields s c
      (asDict (dget result "normalized_fields" (.vDict []))), c + 1)
  else if ability.name = "enrich_records" then
    (add_enriched_data s c (asDict (dget result "enriched_data" (.vDict []))),
      c + 1)
  else if ability.name = "knowledge_base_search" then
    kbAddLoop s c (asList (dget result "kb_results" (.vList [])))
  else if ability.name = "response_generation" then
    (set_generated_response s c
      (asStr (dget result "generated_response" (.vStr ""))), c + 1)
  else if ability.name = "extract_answer" then
    let answer := asStr (dget result "extracted_answer" (.vStr ""))
    if answer ≠ "" && answer ≠ "No response provided" then
      (add_human_response s c answer, c + 1)
    else (s, c)
  else (s, c)

/-- The inline error record appended by the `except MCPClientError` arms:
`{"error": str(e), "ability": ability.name}`. -/
def errorResult (message ability_name : String) : Dict :=
  [("error", .vStr message), ("ability", .vStr ability_name)]

/-- Result of executing one stage (`{"stage": ..., "results": ...,
"status": "completed"}`). -/
structure StageResult where
  stage : String
  results : List Dict
  status : String

/-- A `processing_log` entry as a Python value. -/
def logEntryToVal (e : LogEntry) : Val :=
  .vDict [("timestamp", .vNum e.timestamp),
          ("stage", .vStr e.stage),
          ("event_type", .vStr e.event_type),
          ("details", .vDict e.details)]

/-- The final payload as a Python value (the dict literal shape of
`export_final_payload`). -/
def payloadToVal (p : Payload) : Val :=
  .vDict [
    ("input", .vDict [
      ("customer_name", .vStr p.input.customer_name),
      ("email", .vStr p.input.email),
      ("query", .vStr p.input.query),
      ("priority", .vStr p.input.priority),
      ("ticket_id", .vStr p.input.ticket_id)]),
    ("processing", .vDict [
      ("stages_completed", .vList (p.processing.stages_completed.map .vStr)),
      ("entities_extracted", .vDict p.processing.entities_extracted),
      ("enriched_data", .vDict p.processing.enriched_data),
      ("knowledge_base_results", .vNum p.processing.knowledge_base_results),
      ("solutions_evaluated", .vNum p.processing.solutions_evaluated)]),
    ("decisions", .vDict [
      ("escalation_required", .vBool p.decisions.escalation_required),
      ("escalation_reason", .vStr p.decisions.escalation_reason),
      ("best_solution_score", .vNum p.decisions.best_solution_score)]),
    ("output", .vDict [
      ("generated_response", .vStr p.output.generated_response),
      ("actions_executed", .vList (p.output.actions_executed.map .vStr)),
      ("final_status", .vStr p.output.final_status)]),
    ("metadata", .vDict [
      ("created_at", .vNum p.metadata.created_at),
      ("completed_at", .vNum p.metadata.completed_at),
      ("processing_log", .vList (p.metadata.processing_log.map logEntryToVal))])]

/-- Ability loop of `_execute_payload_stage`: context built once, a
`MCPClientError` is recorded inline and the loop continues, any other
exception propagates with the state mutated so far. -/
def payloadLoop (h : HandlerOracle) (cl : Clients) :
    List Ability → Dict → List Dict → AgentState → Nat →
      (Except PyExc (List Dict)) × AgentState × Nat
  | [], _, acc, s, c => (.ok acc, s, c)
  | ab :: rest, ctx, acc, s, c =>
    match execute_ability (get_client cl ab.server) h ab ctx c with
    | .ok r =>
        let r :=
          if ab.name = "output_payload" then
            dictInsert r "final_payload" (payloadToVal (exportFinalPayload s))
          else r
        payloadLoop h cl rest ctx (acc ++ [r]) s (c + 1)
    | .error (.mcpClientError m) =>
        payloadLoop h cl rest ctx (acc ++ [errorResult m ab.name]) s (c + 1)
    | .error e => (.error e, s, c)

/-- Ability loop of `_execute_deterministic_stage`: strictly in declared
order; after each success the matching state-update rule runs and the context
is rebuilt from the new state; a `MCPClientError` is recorded inline and the
loop continues (with the old context); any other exception propagates. -/
def detLoop (h : HandlerOracle) (cl : Clients) :
    List Ability → Dict → List Dict → AgentState → Nat →
      (Except PyExc (List Dict)) × AgentState × Nat
  | [], _, acc, s, c => (.ok acc, s, c)
  | ab :: rest, ctx, acc, s, c =>
    match execute_ability (get_client cl ab.server) h ab ctx c with
    | .ok r =>
        let sc := update_state_from_result ab r s (c + 1)
        detLoop h cl rest (buildContext sc.1) (acc ++ [r]) sc.1 sc.2
    | .error (.mcpClientError m) =>
        detLoop h cl rest ctx (acc ++ [errorResult m ab.name]) s (c + 1)
    | .error e => (.error e, s, c)

/-- The `for question in questions` loop of `_execute_human_stage`. -/
def addQuestionsLoop : AgentState → Nat → List Val → AgentState × Nat
  | s, c, [] => (s, c)
  | s, c, v :: rest =>
      addQuestionsLoop (add_clarification_question s c (asStr v)) (c + 1) rest

/-- Ability loop of `_execute_human_stage` (context built once). -/
def humanLoop (h : HandlerOracle) (cl : Clients) :
    List Ability → Dict → List Dict → AgentState → Nat →
      (Except PyExc (List Dict)) × AgentState × Nat
  | [], _, acc, s, c => (.ok acc, s, c)
  | ab :: rest, ctx, acc, s, c =>
    match execute_ability (get_client cl ab.server) h ab ctx c with
    | .ok r =>
        let sc :=
          if ab.name = "clarify_question" then
            addQuestionsLoop s (c + 1)
              (asList (dget r "clarification_questions" (.vList [])))
          else (s, c + 1)
        humanLoop h cl rest ctx (acc ++ [r]) sc.1 sc.2
    | .error (.mcpClientError m) =>
        humanLoop h cl rest ctx (acc ++ [errorResult m ab.name]) s (c + 1)
    | .error e => (.error e, s, c)

/-- The `for solution in solutions` loop of
`_execute_non_deterministic_stage` step 1. -/
def addSolutionsLoop : AgentState → Nat → List Val → AgentState × Nat
  | s, c, [] => (s, c)
  | s, c, v :: rest =>
      addSolutionsLoop
        (add_solution s c (asDict v) (asNum (dget (asDict v) "score" (.vNum 0))))
        (c + 1) rest

/-- `StageExecutor._execute_non_deterministic_stage`: for DECIDE, the fixed
three-step choreography (solution_evaluation → append solutions; rebuild
context; escalation_decision → set flag; update_payload with the context from
after step 1).  No exception is caught here: any failure propagates with the
state mutated so far. -/
def executeNonDetStage (h : HandlerOracle) (cl : Clients) (stage : Stage)
    (s : AgentState) (c : Nat) : (Except PyExc StageResult) × AgentState × Nat :=
  let ctx := buildContext s
  if stage.name = "DECIDE" then
    -- Step 1: solution_evaluation (defensive lookup on the stage's abilities)
    let step1 : (Except PyExc (List Dict)) × Dict × AgentState × Nat :=
      match stage.abilities.find? (fun a => a.name = "solution_evaluation") with
      | none => (.ok [], ctx, s, c)
      | some ab =>
        match execute_ability (get_client cl ab.server) h ab ctx c with
        | .ok eval_result =>
            let sc := addSolutionsLoop s (c + 1)
              (asList (dget eval_result "solutions" (.vList [])))
            (.ok [eval_result], buildContext sc.1, sc.1, sc.2)
        | .error e => (.error e, ctx, s, c)
    match step1 with
    | (.error e, _, s1, c1) => (.error e, s1, c1)
    | (.ok results1, ctx1, s1, c1) =>
      -- Step 2: escalation_decision
      let step2 : (Except PyExc (List Dict)) × AgentState × Nat :=
        match stage.abilities.find? (fun a => a.name = "escalation_decision") with
        | none => (.ok results1, s1, c1)
        | some ab =>
          match execute_ability (get_client cl ab.server) h ab ctx1 c1 with
          | .ok escalation_result =>
              let escalation_data :=
                asDict (dget escalation_result "escalation_decision" (.vDict []))
              let s2 := set_escalation s1 (c1 + 1)
                (asBool (dget escalation_data "escalation_required" (.vBool false)))
                (asStr (dget escalation_data "reason" (.vStr "")))
              (.ok (results1 ++ [escalation_result]), s2, c1 + 2)
          | .error e => (.error e, s1, c1)
      match step2 with
      | (.error e, s2, c2) => (.error e, s2, c2)
      | (.ok results2, s2, c2) =>
        -- Step 3: update_payload (still with the context from after step 1)
        match stage.abilities.find? (fun a => a.name = "update_payload") with
        | none => (.ok ⟨stage.name, results2, "completed"⟩, s2, c2)
        | some ab =>
          match execute_ability (get_client cl ab.server) h ab ctx1 c2 with
          | .ok update_result =>
              (.ok ⟨stage.name, results2 ++ [update_result], "completed"⟩,
                s2, c2 + 1)
          | .error e => (.error e, s2, c2)
  else
    (.ok ⟨stage.name, [], "completed"⟩, s, c)

/-- `StageExecutor.execute_stage`: look up the stage configuration (unknown
stage raises `ValueError`), advance the state to the stage, then dispatch on
the stage mode. -/
def execute_stage (h : HandlerOracle) (cl : Clients) (stage_name : String)
    (s : AgentState) (c : Nat) : (Except PyExc StageResult) × AgentState × Nat :=
  match STAGES.find? (fun st => st.name = stage_name) with
  | none => (.error (.pythonError ("Unknown stage: " ++ stage_name)), s, c)
  | some cfg =>
    let s1 := update_stage s c stage_name
    match cfg.mode with
    | .payload_only =>
        let (r, s', c') :=
          payloadLoop h cl cfg.abilities (buildContext s1) [] s1 (c + 1)
        (r.map (fun results => ⟨cfg.name, results, "completed"⟩), s', c')
    | .deterministic =>
        let (r, s', c') :=
          detLoop h cl cfg.abilities (buildContext s1) [] s1 (c + 1)
        (r.map (fun results => ⟨cfg.name, results, "completed"⟩), s', c')
    | .non_deterministic => executeNonDetStage h cl cfg s1 (c + 1)
    | .human =>
        let (r, s', c') :=
          humanLoop h cl cfg.abilities (buildContext s1) [] s1 (c + 1)
        (r.map (fun results => ⟨cfg.name, results, "completed"⟩), s', c')

/-! ## Workflow engine (`langgraph_agent.py`) -/

/-- Message of an exception (`str(e)`). -/
def pyExcMessage : PyExc → String
  | .mcpClientError m => m
  | .pythonError m => m

/-- The fixed node order of the compiled graph (`_build_graph`; the
conditional edge after DECIDE routes both labels to UPDATE). -/
def stageNames : List String :=
  ["INTAKE", "UNDERSTAND", "PREPARE", "ASK", "WAIT", "RETRIEVE", "DECIDE",
   "UPDATE", "CREATE", "DO", "COMPLETE"]

/-- Run the graph: each node sets up a fresh connected executor, runs its
stage, and `_wrap_node` catches any escaping exception into the graph-level
`error` field while the shared state manager keeps all mutations made so
far; the graph then continues with the next node. -/
def runGraph (h : HandlerOracle) (s : AgentState) (c : Nat) :
    AgentState × Nat × Option String :=
  stageNames.foldl
    (fun acc name =>
      match execute_stage h connectedClients name acc.1 acc.2.1 with
      | (.ok _, s', c') => (s', c', acc.2.2)
      | (.error e, s', c') => (s', c', some (pyExcMessage e)))
    (s, c, none)

/-- `LangieAgent.process_request`: initialize state from the input, run the
graph, export the final payload from the state manager. -/
def runWorkflow (h : HandlerOracle) (input : InputData) : Payload :=
  let s0 : AgentState := {}
  let s1 := initialize_state s0 1 input
  exportFinalPayload (runGraph h s1 2).1

/-- Last-occurrence lookup: the value `m` ultimately assigns to a key. -/
def lastAssoc {α : Type} (m : List (String × α)) (key : String) : Option α :=
  dlookup m.reverse key

/-! ## Derived configurations used by the verified properties -/

/-- A request input exercising the workflow (all five required fields). -/
def sampleInput : InputData :=
  [("customer_name", "A"), ("email", "B"), ("query", ""), ("priority", "low"),
   ("ticket_id", "T1")]

/-- The fixed 11-stage order the specification promises for
`stages_completed`. -/
def fixedStageOrder : List String :=
  ["INTAKE", "UNDERSTAND", "PREPARE", "ASK", "WAIT", "RETRIEVE", "DECIDE",
   "UPDATE", "CREATE", "DO", "COMPLETE"]

/-- Handler table equal to the real one except that `solution_evaluation`
returns an arbitrary list of solution records: used to quantify over the
scores the DECIDE stage appends. -/
def mkEvalOracle (S : List Dict) : HandlerOracle := fun srv name ctx now =>
  match srv, name with
  | .common, "solution_evaluation" => .ok [("solutions", .vList (S.map .vDict))]
  | _, _ => realHandlers srv name ctx now

/-- Handler table in which the `parse_request_text` handler raises an
exception that is not an `MCPClientError`. -/
def pyBoomOracle : HandlerOracle := fun srv name ctx now =>
  match srv, name with
  | .common, "parse_request_text" => .error (.pythonError "boom")
  | _, _ => realHandlers srv name ctx now

/-- Handler table in which the `parse_request_text` handler raises an
`MCPClientError`. -/
def mcpBoomOracle : HandlerOracle := fun srv name ctx now =>
  match srv, name with
  | .common, "parse_request_text" => .error (.mcpClientError "boom")
  | _, _ => realHandlers srv name ctx now

/-- Handler table in which the `solution_evaluation` handler raises an
`MCPClientError` (to probe the DECIDE stage, which catches nothing). -/
def mcpBoomDecideOracle : HandlerOracle := fun srv name ctx now =>
  match srv, name with
  | .common, "solution_evaluation" => .error (.mcpClientError "boom")
  | _, _ => realHandlers srv name ctx now

/-- The DECIDE stage run through the stage executor with connected clients
and a handler table whose `solution_evaluation` returns `S`. -/
def decideRun (S : List Dict) (s : AgentState) (c : Nat) :
    (Except PyExc StageResult) × AgentState × Nat :=
  execute_stage (mkEvalOracle S) connectedClients "DECIDE" s c

/-- The score each solution record carries (`solution.get("score", 0)`). -/
def scoresOf (S : List Dict) : List Int :=
  S.map fun sol => asNum (dget sol "score" (.vNum 0))

/-- The state `new` extends the log of `old` by exactly one entry with the
given event type. -/
def appendsOneLog (old new : AgentState) (ev : String) : Prop :=
  ∃ e, new.processing_log = old.processing_log ++ [e] ∧ e.event_type = ev

/-- The five request-input fields of a state. -/
def inputFields (s : AgentState) :
    String × String × String × String × String :=
  (s.customer_name, s.email, s.query, s.priority, s.ticket_id)

/-! ## Helper lemmas: Python `max` -/

theorem le_foldl_max (l : List Int) (a : Int) : a ≤ l.foldl max a := by
  induction l generalizing a with
  | nil => exact le_refl a
  | cons b t ih => exact le_trans (le_max_left a b) (ih (max a b))

theorem mem_le_foldl_max (l : List Int) (a x : Int) (hx : x ∈ l) :
    x ≤ l.foldl max a := by
  induction l generalizing a with
  | nil => cases hx
  | cons b t ih =>
    rcases List.mem_cons.mp hx with h | h
    · subst h
      exact le_trans (le_max_right a x) (le_foldl_max t (max a x))
    · exact ih (max a b) h

theorem foldl_max_eq_or_mem (l : List Int) (a : Int) :
    l.foldl max a = a ∨ l.foldl max a ∈ l := by
  induction l generalizing a with
  | nil => exact Or.inl rfl
  | cons b t ih =>
    rcases ih (max a b) with h | h
    · rcases max_choice a b with hm | hm
      · exact Or.inl (by rw [List.foldl_cons, h, hm])
      · refine Or.inr ?_
        rw [List.foldl_cons, h, hm]
        exact List.mem_cons_self b t
    · exact Or.inr (List.mem_cons_of_mem b h)

theorem pyMaxOr0_mem (l : List Int) (h : l ≠ []) : pyMaxOr0 l ∈ l := by
  cases l with
  | nil => exact absurd rfl h
  | cons x xs =>
    show xs.foldl max x ∈ x :: xs
    rcases foldl_max_eq_or_mem xs x with h' | h'
    · rw [h']
      exact List.mem_cons_self x xs
    · exact List.mem_cons_of_mem x h'

theorem le_pyMaxOr0 (l : List Int) (x : Int) (hx : x ∈ l) : x ≤ pyMaxOr0 l := by
  cases l with
  | nil => cases hx
  | cons y ys =>
    show x ≤ ys.foldl max y
    rcases List.mem_cons.mp hx with h | h
    · rw [h]
      exact le_foldl_max ys y
    · exact mem_le_foldl_max ys y x h

/-! ## Helper lemmas: Python dict assignment and merge -/

theorem dkeys_nil {α : Type} : dkeys ([] : List (String × α)) = [] := rfl

theorem dkeys_cons {α : Type} (kv : String × α) (rest : List (String × α)) :
    dkeys (kv :: rest) = kv.1 :: dkeys rest := rfl

theorem dkeys_dictInsert {α : Type} (d : List (String × α)) (k : String)
    (v : α) :
    dkeys (dictInsert d k v) =
      if k ∈ dkeys d then dkeys d else dkeys d ++ [k] := by
  induction d with
  | nil => simp [dictInsert, dkeys]
  | cons kv rest ih =>
    by_cases h : kv.1 = k
    · have hm : k ∈ dkeys (kv :: rest) := by
        rw [dkeys_cons, h]
        exact List.mem_cons_self k (dkeys rest)
      have step : dictInsert (kv :: rest) k v = (k, v) :: rest := by
        simp [dictInsert, h]
      rw [if_pos hm, step, dkeys_cons, dkeys_cons, h]
    · have hiff : (k ∈ dkeys (kv :: rest)) ↔ (k ∈ dkeys rest) := by
        rw [dkeys_cons]
        constructor
        · intro hmem
          rcases List.mem_cons.mp hmem with he | he
          · exact absurd he.symm h
          · exact he
        · exact List.mem_cons_of_mem kv.1
      have step : dictInsert (kv :: rest) k v = kv :: dictInsert rest k v := by
        simp [dictInsert, h]
      rw [step, dkeys_cons, ih]
      by_cases hm : k ∈ dkeys rest
      · rw [if_pos hm, if_pos (hiff.mpr hm), dkeys_cons]
      · rw [if_neg hm, if_neg (fun hx => hm (hiff.mp hx)), dkeys_cons]
        rfl

theorem dlookup_dictInsert_self {α : Type} (d : List (String × α)) (k : String)
    (v : α) : dlookup (dictInsert d k v) k = some v := by
  induction d with
  | nil => simp [dictInsert, dlookup]
  | cons kv rest ih =>
    by_cases h : kv.1 = k
    · simp [dictInsert, h, dlookup]
    · simp [dictInsert, h, dlookup, ih]

theorem dlookup_dictInsert_ne {α : Type} (d : List (String × α))
    (k k' : String) (v : α) (hne : k' ≠ k) :
    dlookup (dictInsert d k v) k' = dlookup d k' := by
  have hkk : ¬k = k' := fun h => hne h.symm
  induction d with
  | nil => simp [dictInsert, dlookup, hkk]
  | cons kv rest ih =>
    by_cases h : kv.1 = k
    · have step : dictInsert (kv :: rest) k v = (k, v) :: rest := by
        simp [dictInsert, h]
      have hk' : ¬kv.1 = k' := fun hx => hkk (h ▸ hx)
      rw [step]
      simp [dlookup, hkk, hk']
    · have step : dictInsert (kv :: rest) k v = kv :: dictInsert rest k v := by
        simp [dictInsert, h]
      rw [step]
      by_cases h' : kv.1 = k'
      · simp [dlookup, h']
      · simp [dlookup, h', ih]

theorem nodup_dkeys_dictInsert {α : Type} (d : List (String × α)) (k : String)
    (v : α) (hd : (dkeys d).Nodup) : (dkeys (dictInsert d k v)).Nodup := by
  rw [dkeys_dictInsert]
  by_cases hm : k ∈ dkeys d
  · rwa [if_pos hm]
  · rw [if_neg hm]
    simpa [List.nodup_append] using ⟨hd, hm⟩

theorem mem_dkeys_dictInsert_left {α : Type} (d : List (String × α))
    (k a : String) (v : α) (ha : a ∈ dkeys d) :
    a ∈ dkeys (dictInsert d k v) := by
  rw [dkeys_dictInsert]
  by_cases hm : k ∈ dkeys d
  · rwa [if_pos hm]
  · rw [if_neg hm]
    exact List.mem_append_left _ ha

theorem mem_dkeys_dictInsert_self {α : Type} (d : List (String × α))
    (k : String) (v : α) : k ∈ dkeys (dictInsert d k v) := by
  rw [dkeys_dictInsert]
  by_cases hm : k ∈ dkeys d
  · rwa [if_pos hm]
  · rw [if_neg hm]
    exact List.mem_append_right _ (List.mem_singleton.mpr rfl)

theorem dkeys_dictUpdate_subset {α : Type} (d m : List (String × α)) :
    ∀ a ∈ dkeys d, a ∈ dkeys (dictUpdate d m) := by
  induction m generalizing d with
  | nil => intro a ha; exact ha
  | cons kv rest ih =>
    intro a ha
    exact ih (dictInsert d kv.1 kv.2) a
      (mem_dkeys_dictInsert_left d kv.1 a kv.2 ha)

theorem mem_dkeys_dictUpdate {α : Type} (d m : List (String × α)) :
    ∀ a ∈ dkeys m, a ∈ dkeys (dictUpdate d m) := by
  induction m generalizing d with
  | nil => intro a ha; cases ha
  | cons kv rest ih =>
    intro a ha
    rcases List.mem_cons.mp (by rwa [dkeys_cons] at ha) with h | h
    · exact dkeys_dictUpdate_subset (dictInsert d kv.1 kv.2) rest a
        (h ▸ mem_dkeys_dictInsert_self d kv.1 kv.2)
    · exact ih (dictInsert d kv.1 kv.2) a h

theorem dkeys_dictUpdate_of_subset {α : Type} (d m : List (String × α))
    (h : ∀ p ∈ m, p.1 ∈ dkeys d) : dkeys (dictUpdate d m) = dkeys d := by
  induction m generalizing d with
  | nil => rfl
  | cons kv rest ih =>
    have hk : kv.1 ∈ dkeys d := h kv (List.mem_cons_self kv rest)
    have hkeys : dkeys (dictInsert d kv.1 kv.2) = dkeys d := by
      rw [dkeys_dictInsert, if_pos hk]
    have hrest : ∀ p ∈ rest, p.1 ∈ dkeys (dictInsert d kv.1 kv.2) := by
      intro p hp
      rw [hkeys]
      exact h p (List.mem_cons_of_mem kv hp)
    calc dkeys (dictUpdate d (kv :: rest))
        = dkeys (dictUpdate (dictInsert d kv.1 kv.2) rest) := rfl
      _ = dkeys (dictInsert d kv.1 kv.2) := ih _ hrest
      _ = dkeys d := hkeys

theorem nodup_dkeys_dictUpdate {α : Type} (d m : List (String × α))
    (hd : (dkeys d).Nodup) : (dkeys (dictUpdate d m)).Nodup := by
  induction m generalizing d with
  | nil => exact hd
  | cons kv rest ih =>
    exact ih (dictInsert d kv.1 kv.2) (nodup_dkeys_dictInsert d kv.1 kv.2 hd)

theorem dlookup_append {α : Type} (l1 l2 : List (String × α)) (key : String) :
    dlookup (l1 ++ l2) key =
      match dlookup l1 key with
      | some v => some v
      | none => dlookup l2 key := by
  induction l1 with
  | nil => simp [dlookup]
  | cons kv rest ih =>
    by_cases h : kv.1 = key
    · simp [dlookup, h]
    · simp [dlookup, h, ih]

theorem lastAssoc_cons {α : Type} (kv : String × α) (rest : List (String × α))
    (key : String) :
    lastAssoc (kv :: rest) key =
      match lastAssoc rest key with
      | some v => some v
      | none => if kv.1 = key then some kv.2 else none := by
  rw [lastAssoc, List.reverse_cons, dlookup_append]
  cases h : dlookup rest.reverse key with
  | none => simp [lastAssoc, h, dlookup]
  | some v => simp [lastAssoc, h]

theorem dlookup_dictUpdate {α : Type} (d m : List (String × α)) (key : String) :
    dlookup (dictUpdate d m) key =
      match lastAssoc m key with
      | some v => some v
      | none => dlookup d key := by
  induction m generalizing d with
  | nil => simp [dictUpdate, lastAssoc, dlookup]
  | cons kv rest ih =>
    have step : dictUpdate d (kv :: rest) =
        dictUpdate (dictInsert d kv.1 kv.2) rest := rfl
    rw [step, ih, lastAssoc_cons]
    cases h : lastAssoc rest key with
    | some v => rfl
    | none =>
      by_cases hk : kv.1 = key
      · subst hk
        simp [dlookup_dictInsert_self]
      · simp [hk, dlookup_dictInsert_ne d kv.1 key kv.2 (fun h' => hk h'.symm)]

theorem dlookup_eq_none_of_not_mem {α : Type} (d : List (String × α))
    (key : String) (h : key ∉ dkeys d) : dlookup d key = none := by
  induction d with
  | nil => rfl
  | cons kv rest ih =>
    have h1 : ¬kv.1 = key := by
      intro he
      refine h ?_
      rw [dkeys_cons, he]
      exact List.mem_cons_self key (dkeys rest)
    have h2 : key ∉ dkeys rest := by
      intro hm
      refine h ?_
      rw [dkeys_cons]
      exact List.mem_cons_of_mem kv.1 hm
    simp [dlookup, h1, ih h2]

theorem dict_ext {α : Type} (d1 : List (String × α)) :
    ∀ (d2 : List (String × α)), dkeys d1 = dkeys d2 → (dkeys d1).Nodup →
      (∀ key, dlookup d1 key = dlookup d2 key) → d1 = d2 := by
  induction d1 with
  | nil =>
    intro d2 hkeys _ _
    cases d2 with
    | nil => rfl
    | cons kv rest => simp [dkeys] at hkeys
  | cons kv rest ih =>
    intro d2 hkeys hnd hlook
    cases d2 with
    | nil => simp [dkeys] at hkeys
    | cons kv2 rest2 =>
      rw [dkeys_cons, dkeys_cons] at hkeys
      have hk : kv.1 = kv2.1 := (List.cons.injEq _ _ _ _ ▸ hkeys).1
      have hkeys' : dkeys rest = dkeys rest2 :=
        (List.cons.injEq _ _ _ _ ▸ hkeys).2
      rw [dkeys_cons, List.nodup_cons] at hnd
      have hnotmem : kv.1 ∉ dkeys rest := hnd.1
      have hnd' : (dkeys rest).Nodup := hnd.2
      have hv : kv.2 = kv2.2 := by
        have hL : dlookup (kv :: rest) kv.1 = some kv.2 := by simp [dlookup]
        have hR : dlookup (kv2 :: rest2) kv.1 = some kv2.2 := by
          simp [dlookup, hk]
        have h1 := hlook kv.1
        rw [hL, hR] at h1
        exact Option.some.inj h1
      have hlook' : ∀ key, dlookup rest key = dlookup rest2 key := by
        intro key
        by_cases hkey : key = kv.1
        · rw [hkey, dlookup_eq_none_of_not_mem rest kv.1 hnotmem,
            dlookup_eq_none_of_not_mem rest2 kv.1 (hkeys' ▸ hnotmem)]
        · have hne1 : ¬kv.1 = key := fun h => hkey h.symm
          have hne2 : ¬kv2.1 = key := fun h => hkey (hk.trans h).symm
          have h1 := hlook key
          simpa only [dlookup, if_neg hne1, if_neg hne2] using h1
      have hpair : kv = kv2 := by
        rcases kv with ⟨a, b⟩
        rcases kv2 with ⟨a2, b2⟩
        cases hk
        cases hv
        rfl
      rw [hpair, ih rest2 hkeys' hnd' hlook']

/-- Merging the same mapping twice is the same as merging it once (on any
dict with unique keys, which every dict built by this code has). -/
theorem dictUpdate_idem {α : Type} (d m : List (String × α))
    (hd : (dkeys d).Nodup) :
    dictUpdate (dictUpdate d m) m = dictUpdate d m := by
  refine dict_ext _ _ ?_ (nodup_dkeys_dictUpdate _ m
    (nodup_dkeys_dictUpdate _ m hd)) ?_
  · refine dkeys_dictUpdate_of_subset _ m ?_
    intro p hp
    exact mem_dkeys_dictUpdate d m p.1 (List.mem_map_of_mem Prod.fst hp)
  · intro key
    rw [dlookup_dictUpdate, dlookup_dictUpdate]
    cases h : lastAssoc m key with
    | some v => rfl
    | none => rfl

/-! ## Claim theorems -/

/-- C3: in every exported final payload, `best_solution_score` is `0` when the
state's `solution_scores` list is empty, and otherwise is one of the recorded
scores and an upper bound of all of them (i.e. their maximum). -/
theorem c3_best_solution_score_is_max (s : AgentState) :
    (s.solution_scores = [] →
      (exportFinalPayload s).decisions.best_solution_score = 0) ∧
    (s.solution_scores ≠ [] →
      (exportFinalPayload s).decisions.best_solution_score ∈
        s.solution_scores ∧
      ∀ x ∈ s.solution_scores,
        x ≤ (exportFinalPayload s).decisions.best_solution_score) := by
  constructor
  · intro h
    show pyMaxOr0 s.solution_scores = 0
    rw [h]
    rfl
  · intro h
    exact ⟨pyMaxOr0_mem _ h, fun x hx => le_pyMaxOr0 _ x hx⟩

/-- Witness for C3 at a concrete state with scores `[85, 92]` and at the empty
state. -/
theorem c3_best_solution_score_witness :
    (exportFinalPayload { solution_scores := [85, 92] }
      ).decisions.best_solution_score ∈ ([85, 92] : List Int) ∧
    (exportFinalPayload {}).decisions.best_solution_score = 0 :=
  ⟨((c3_best_solution_score_is_max { solution_scores := [85, 92] }).2
      (by simp)).1,
   (c3_best_solution_score_is_max {}).1 rfl⟩

/-- C5: every state-mutation method of the state store appends exactly one
entry to `processing_log` per call, tagged with the event type describing that
mutation. -/
theorem c5_each_mutation_logs_once (s : AgentState) (now : Nat)
    (inp : InputData) (stg : String) (ent flds dat res sol : Dict) (sc : Int)
    (req : Bool) (reason q resp act : String) :
    appendsOneLog s (initialize_state s now inp) "STATE_INITIALIZED" ∧
    appendsOneLog s (update_stage s now stg) "STAGE_UPDATED" ∧
    appendsOneLog s (update_entities s now ent) "ENTITIES_UPDATED" ∧
    appendsOneLog s (update_normalized_fields s now flds) "FIELDS_NORMALIZED" ∧
    appendsOneLog s (add_enriched_data s now dat) "DATA_ENRICHED" ∧
    appendsOneLog s (add_kb_result s now res) "KB_RESULT_ADDED" ∧
    appendsOneLog s (add_solution s now sol sc) "SOLUTION_ADDED" ∧
    appendsOneLog s (set_escalation s now req reason) "ESCALATION_SET" ∧
    appendsOneLog s (add_clarification_question s now q)
      "CLARIFICATION_ADDED" ∧
    appendsOneLog s (add_human_response s now resp) "HUMAN_RESPONSE_ADDED" ∧
    appendsOneLog s (set_generated_response s now resp) "RESPONSE_GENERATED" ∧
    appendsOneLog s (add_action s now act) "ACTION_EXECUTED" := by
  refine ⟨⟨_, rfl, rfl⟩, ?_, ⟨_, rfl, rfl⟩, ⟨_, rfl, rfl⟩, ⟨_, rfl, rfl⟩,
    ⟨_, rfl, rfl⟩, ⟨_, rfl, rfl⟩, ⟨_, rfl, rfl⟩, ⟨_, rfl, rfl⟩,
    ⟨_, rfl, rfl⟩, ⟨_, rfl, rfl⟩, ⟨_, rfl, rfl⟩⟩
  unfold appendsOneLog update_stage log_event
  split <;> exact ⟨_, rfl, rfl⟩

/-- C6: `export_final_payload` does not mutate the state (in particular the
log does not grow), and a second call on the resulting state returns the
identical payload. -/
theorem c6_export_pure_idempotent (s : AgentState) :
    (exportFinalPayloadM s).2 = s ∧
    (exportFinalPayloadM ((exportFinalPayloadM s).2)).1 =
      (exportFinalPayloadM s).1 ∧
    ((exportFinalPayloadM s).2).processing_log = s.processing_log :=
  ⟨rfl, rfl, rfl⟩

/-- C7: the `entities`, `normalized_fields` and `enriched_data` mappings are
idempotent under a repeated merge of the same mapping, and the merged mapping
has no duplicate keys (given the stored dict has unique keys, which holds for
every dict the store ever builds from its empty initial dicts). -/
theorem c7_merge_idempotent (s : AgentState) (n1 n2 : Nat) (m : Dict)
    (hE : (dkeys s.entities).Nodup) (hN : (dkeys s.normalized_fields).Nodup)
    (hD : (dkeys s.enriched_data).Nodup) :
    (update_entities (update_entities s n1 m) n2 m).entities =
      (update_entities s n1 m).entities ∧
    (dkeys (update_entities s n1 m).entities).Nodup ∧
    (update_normalized_fields (update_normalized_fields s n1 m) n2
        m).normalized_fields =
      (update_normalized_fields s n1 m).normalized_fields ∧
    (dkeys (update_normalized_fields s n1 m).normalized_fields).Nodup ∧
    (add_enriched_data (add_enriched_data s n1 m) n2 m).enriched_data =
      (add_enriched_data s n1 m).enriched_data ∧
    (dkeys (add_enriched_data s n1 m).enriched_data).Nodup := by
  refine ⟨?_, ?_, ?_, ?_, ?_, ?_⟩
  · exact dictUpdate_idem s.entities m hE
  · exact nodup_dkeys_dictUpdate s.entities m hE
  · exact dictUpdate_idem s.normalized_fields m hN
  · exact nodup_dkeys_dictUpdate s.normalized_fields m hN
  · exact dictUpdate_idem s.enriched_data m hD
  · exact nodup_dkeys_dictUpdate s.enriched_data m hD

/-- Witness for C7: merging `{"a": 1}` twice into a fresh store equals merging
it once. -/
theorem c7_merge_idempotent_witness :
    (update_entities (update_entities {} 0 [("a", .vNum 1)]) 1
        [("a", .vNum 1)]).entities =
      (update_entities {} 0 [("a", .vNum 1)]).entities :=
  (c7_merge_idempotent {} 0 1 [("a", .vNum 1)]
    List.nodup_nil List.nodup_nil List.nodup_nil).1

/-- C9: every state-store mutation method other than `initialize_state`
leaves the five input fields unchanged. -/
theorem c9_input_fields_frame (s : AgentState) (now : Nat) (stg : String)
    (ent flds dat res sol : Dict) (sc : Int) (req : Bool)
    (reason q resp act ev : String) (det : Dict) :
    inputFields (update_stage s now stg) = inputFields s ∧
    inputFields (update_entities s now ent) = inputFields s ∧
    inputFields (update_normalized_fields s now flds) = inputFields s ∧
    inputFields (add_enriched_data s now dat) = inputFields s ∧
    inputFields (add_kb_result s now res) = inputFields s ∧
    inputFields (add_solution s now sol sc) = inputFields s ∧
    inputFields (set_escalation s now req reason) = inputFields s ∧
    inputFields (add_clarification_question s now q) = inputFields s ∧
    inputFields (add_human_response s now resp) = inputFields s ∧
    inputFields (set_generated_response s now resp) = inputFields s ∧
    inputFields (add_action s now act) = inputFields s ∧
    inputFields (log_event s now ev det) = inputFields s := by
  refine ⟨?_, rfl, rfl, rfl, rfl, rfl, rfl, rfl, rfl, rfl, rfl, rfl⟩
  unfold inputFields update_stage log_event
  split <;> rfl

/-- C10: calling `initialize_state` a second time on the same store
overwrites the five input fields with the new input (missing keys falling back
to `""`, priority to `"medium"`), appends a second `STATE_INITIALIZED` log
entry, and leaves every other state field unchanged. -/
theorem c10_reinitialize_overwrites_and_logs (s : AgentState) (n1 n2 : Nat)
    (i1 i2 : InputData) :
    let s2 := initialize_state (initialize_state s n1 i1) n2 i2
    (s2.customer_name = iget i2 "customer_name" "" ∧
     s2.email = iget i2 "email" "" ∧
     s2.query = iget i2 "query" "" ∧
     s2.priority = iget i2 "priority" "medium" ∧
     s2.ticket_id = iget i2 "ticket_id" "") ∧
    s2.processing_log = s.processing_log ++
      [⟨n1, s.current_stage, "STATE_INITIALIZED",
         [("input_keys", .vList (i1.map fun kv => .vStr kv.1))]⟩,
       ⟨n2, s.current_stage, "STATE_INITIALIZED",
         [("input_keys", .vList (i2.map fun kv => .vStr kv.1))]⟩] ∧
    s2.current_stage = s.current_stage ∧
    s2.stage_history = s.stage_history ∧
    s2.entities = s.entities ∧
    s2.normalized_fields = s.normalized_fields ∧
    s2.enriched_data = s.enriched_data ∧
    s2.kb_results = s.kb_results ∧
    s2.solutions = s.solutions ∧
    s2.solution_scores = s.solution_scores ∧
    s2.escalation_required = s.escalation_required ∧
    s2.escalation_reason = s.escalation_reason ∧
    s2.actions_taken = s.actions_taken ∧
    s2.clarification_questions = s.clarification_questions ∧
    s2.human_responses = s.human_responses ∧
    s2.generated_response = s.generated_response ∧
    s2.created_at = s.created_at ∧
    s2.updated_at = s.updated_at := by
  refine ⟨⟨rfl, rfl, rfl, rfl, rfl⟩, ?_, rfl, rfl, rfl, rfl, rfl, rfl, rfl,
    rfl, rfl, rfl, rfl, rfl, rfl, rfl, rfl, rfl⟩
  show (s.processing_log ++ [_]) ++ [_] = _
  rw [List.append_assoc]
  rfl

/-! ## Error-handling lemmas -/

set_option maxRecDepth 10000

theorem realHandlers_no_pythonError (srv : MCPServer) (name : String)
    (ctx : Dict) (now : Nat) (m : String) :
    realHandlers srv name ctx now ≠ .error (.pythonError m) := by
  cases srv <;> simp [realHandlers]

theorem execute_ability_realHandlers_no_pythonError (client : MCPClientSt)
    (ab : Ability) (ctx : Dict) (now : Nat) (m : String) :
    execute_ability client realHandlers ab ctx now ≠
      .error (.pythonError m) := by
  unfold execute_ability
  split
  · simp
  · split
    · simp
    · exact realHandlers_no_pythonError _ _ _ _ m

theorem detLoop_cons (h : HandlerOracle) (cl : Clients) (ab : Ability)
    (rest : List Ability) (ctx : Dict) (acc : List Dict) (s : AgentState)
    (c : Nat) :
    detLoop h cl (ab :: rest) ctx acc s c =
      match execute_ability (get_client cl ab.server) h ab ctx c with
      | .ok r =>
          let sc := update_state_from_result ab r s (c + 1)
          detLoop h cl rest (buildContext sc.1) (acc ++ [r]) sc.1 sc.2
      | .error (.mcpClientError m) =>
          detLoop h cl rest ctx (acc ++ [errorResult m ab.name]) s (c + 1)
      | .error e => (.error e, s, c) := rfl

theorem payloadLoop_cons (h : HandlerOracle) (cl : Clients) (ab : Ability)
    (rest : List Ability) (ctx : Dict) (acc : List Dict) (s : AgentState)
    (c : Nat) :
    payloadLoop h cl (ab :: rest) ctx acc s c =
      match execute_ability (get_client cl ab.server) h ab ctx c with
      | .ok r =>
          let r :=
            if ab.name = "output_payload" then
              dictInsert r "final_payload" (payloadToVal (exportFinalPayload s))
            else r
          payloadLoop h cl rest ctx (acc ++ [r]) s (c + 1)
      | .error (.mcpClientError m) =>
          payloadLoop h cl rest ctx (acc ++ [errorResult m ab.name]) s (c + 1)
      | .error e => (.error e, s, c) := rfl

theorem humanLoop_cons (h : HandlerOracle) (cl : Clients) (ab : Ability)
    (rest : List Ability) (ctx : Dict) (acc : List Dict) (s : AgentState)
    (c : Nat) :
    humanLoop h cl (ab :: rest) ctx acc s c =
      match execute_ability (get_client cl ab.server) h ab ctx c with
      | .ok r =>
          let sc :=
            if ab.name = "clarify_question" then
              addQuestionsLoop s (c + 1)
                (asList (dget r "clarification_questions" (.vList [])))
            else (s, c + 1)
          humanLoop h cl rest ctx (acc ++ [r]) sc.1 sc.2
      | .error (.mcpClientError m) =>
          humanLoop h cl rest ctx (acc ++ [errorResult m ab.name]) s (c + 1)
      | .error e => (.error e, s, c) := rfl

/-- Handler calls on the abilities of `abilities` can fail only with
`MCPClientError`. -/
def onlyMCPFailures (h : HandlerOracle) (cl : Clients)
    (abilities : List Ability) : Prop :=
  ∀ ab ∈ abilities, ∀ ctx n m,
    execute_ability (get_client cl ab.server) h ab ctx n ≠
      .error (.pythonError m)

theorem detLoop_completes (h : HandlerOracle) (cl : Clients)
    (abilities : List Ability) :
    ∀ (ctx : Dict) (acc : List Dict) (s : AgentState) (c : Nat),
      onlyMCPFailures h cl abilities →
      ∃ res, (detLoop h cl abilities ctx acc s c).1 = .ok res ∧
        res.length = acc.length + abilities.length := by
  induction abilities with
  | nil =>
    intro ctx acc s c _
    exact ⟨acc, rfl, by simp [detLoop]⟩
  | cons ab rest ih =>
    intro ctx acc s c hH
    have hrest : onlyMCPFailures h cl rest :=
      fun ab' hm => hH ab' (List.mem_cons_of_mem ab hm)
    rw [detLoop_cons]
    cases hr : execute_ability (get_client cl ab.server) h ab ctx c with
    | ok r =>
      obtain ⟨res, hres, hlen⟩ := ih
        (buildContext (update_state_from_result ab r s (c + 1)).1) (acc ++ [r])
        (update_state_from_result ab r s (c + 1)).1
        (update_state_from_result ab r s (c + 1)).2 hrest
      refine ⟨res, hres, ?_⟩
      rw [hlen]
      simp [List.length_append]
      omega
    | error e =>
      cases e with
      | mcpClientError m =>
        obtain ⟨res, hres, hlen⟩ := ih ctx (acc ++ [errorResult m ab.name]) s
          (c + 1) hrest
        refine ⟨res, hres, ?_⟩
        rw [hlen]
        simp [List.length_append]
        omega
      | pythonError m =>
        exact absurd hr (hH ab (List.mem_cons_self ab rest) ctx c m)

theorem payloadLoop_completes (h : HandlerOracle) (cl : Clients)
    (abilities : List Ability) :
    ∀ (ctx : Dict) (acc : List Dict) (s : AgentState) (c : Nat),
      onlyMCPFailures h cl abilities →
      ∃ res, (payloadLoop h cl abilities ctx acc s c).1 = .ok res ∧
        res.length = acc.length + abilities.length := by
  induction abilities with
  | nil =>
    intro ctx acc s c _
    exact ⟨acc, rfl, by simp [payloadLoop]⟩
  | cons ab rest ih =>
    intro ctx acc s c hH
    have hrest : onlyMCPFailures h cl rest :=
      fun ab' hm => hH ab' (List.mem_cons_of_mem ab hm)
    rw [payloadLoop_cons]
    cases hr : execute_ability (get_client cl ab.server) h ab ctx c with
    | ok r =>
      obtain ⟨res, hres, hlen⟩ := ih ctx
        (acc ++ [if ab.name = "output_payload" then
          dictInsert r "final_payload" (payloadToVal (exportFinalPayload s))
          else r]) s (c + 1) hrest
      refine ⟨res, hres, ?_⟩
      rw [hlen]
      simp [List.length_append]
      omega
    | error e =>
      cases e with
      | mcpClientError m =>
        obtain ⟨res, hres, hlen⟩ := ih ctx (acc ++ [errorResult m ab.name]) s
          (c + 1) hrest
        refine ⟨res, hres, ?_⟩
        rw [hlen]
        simp [List.length_append]
        omega
      | pythonError m =>
        exact absurd hr (hH ab (List.mem_cons_self ab rest) ctx c m)

theorem humanLoop_completes (h : HandlerOracle) (cl : Clients)
    (abilities : List Ability) :
    ∀ (ctx : Dict) (acc : List Dict) (s : AgentState) (c : Nat),
      onlyMCPFailures h cl abilities →
      ∃ res, (humanLoop h cl abilities ctx acc s c).1 = .ok res ∧
        res.length = acc.length + abilities.length := by
  induction abilities with
  | nil =>
    intro ctx acc s c _
    exact ⟨acc, rfl, by simp [humanLoop]⟩
  | cons ab rest ih =>
    intro ctx acc s c hH
    have hrest : onlyMCPFailures h cl rest :=
      fun ab' hm => hH ab' (List.mem_cons_of_mem ab hm)
    rw [humanLoop_cons]
    cases hr : execute_ability (get_client cl ab.server) h ab ctx c with
    | ok r =>
      obtain ⟨res, hres, hlen⟩ := ih ctx (acc ++ [r])
        (if ab.name = "clarify_question" then
          addQuestionsLoop s (c + 1)
            (asList (dget r "clarification_questions" (.vList [])))
          else (s, c + 1)).1
        (if ab.name = "clarify_question" then
          addQuestionsLoop s (c + 1)
            (asList (dget r "clarification_questions" (.vList [])))
          else (s, c + 1)).2 hrest
      refine ⟨res, hres, ?_⟩
      rw [hlen]
      simp [List.length_append]
      omega
    | error e =>
      cases e with
      | mcpClientError m =>
        obtain ⟨res, hres, hlen⟩ := ih ctx (acc ++ [errorResult m ab.name]) s
          (c + 1) hrest
        refine ⟨res, hres, ?_⟩
        rw [hlen]
        simp [List.length_append]
        omega
      | pythonError m =>
        exact absurd hr (hH ab (List.mem_cons_self ab rest) ctx c m)

/-- C8: a call on a disconnected client, or of an ability bound to the other
backend group, fails with the typed `MCPClientError` carrying the source's
message; the outcome does not depend on the handler table (no handler is
invoked); and inside a stage's ability loop such failures are recorded as
inline error results while the stage continues and completes (shown on the
UNDERSTAND stage run against disconnected clients). -/
theorem c8_backend_mismatch_typed_error (client : MCPClientSt)
    (h h' : HandlerOracle) (ab : Ability) (ctx : Dict) (now : Nat)
    (hfail : client.connected = false ∨ ab.server ≠ client.server_type) :
    (∃ m, execute_ability client h ab ctx now = .error (.mcpClientError m)) ∧
    execute_ability client h ab ctx now =
      execute_ability client h' ab ctx now ∧
    (execute_stage realHandlers disconnectedClients "UNDERSTAND" {} 0).1 =
      .ok ⟨"UNDERSTAND",
        [errorResult "Not connected to common server" "parse_request_text",
         errorResult "Not connected to atlas server" "extract_entities"],
        "completed"⟩ := by
  refine ⟨?_, ?_, rfl⟩
  · cases hcv : client.connected with
    | false =>
      exact ⟨"Not connected to " ++ client.server_type.value ++ " server",
        by simp [execute_ability, hcv]⟩
    | true =>
      have hs : ab.server ≠ client.server_type := by
        rcases hfail with hc | hs
        · rw [hcv] at hc; cases hc
        · exact hs
      exact ⟨"Ability " ++ ab.name ++ " belongs to " ++ ab.server.value ++
          ", not " ++ client.server_type.value,
        by simp [execute_ability, hcv, hs]⟩
  · cases hcv : client.connected with
    | false => simp [execute_ability, hcv]
    | true =>
      have hs : ab.server ≠ client.server_type := by
        rcases hfail with hc | hs
        · rw [hcv] at hc; cases hc
        · exact hs
      simp [execute_ability, hcv, hs]

/-- Witness for C8: routing the ATLAS-bound `extract_entities` ability to the
(connected) COMMON client yields a typed `MCPClientError`. -/
theorem c8_backend_mismatch_witness :
    ∃ m, execute_ability ⟨.common, true⟩ realHandlers
      ⟨"extract_entities", .atlas, "Identify product, account, dates"⟩ [] 0 =
        .error (.mcpClientError m) :=
  (c8_backend_mismatch_typed_error ⟨.common, true⟩ realHandlers realHandlers
    ⟨"extract_entities", .atlas, "Identify product, account, dates"⟩ [] 0
    (Or.inr (by decide))).1

/-- Counterexample to C4 as stated: an exception that is not an
`MCPClientError` raised by the `parse_request_text` handler is not caught by
the stage executor — the UNDERSTAND stage propagates it instead of returning
a completed result. -/
theorem c4_handler_exception_not_caught :
    (execute_stage pyBoomOracle connectedClients "UNDERSTAND" {} 0).1 =
      .error (.pythonError "boom") := rfl

/-- C4 (amended): in PayloadOnly, Deterministic and Human stages, ability
failures of type `MCPClientError` are converted to inline error results
tagged with the ability name and the loop continues, producing one result per
ability and a completed stage; this is shown generically for the three
ability loops (under the hypothesis that no other exception type arises) and
concretely for an `MCPClientError` raised mid-UNDERSTAND; exceptions of any
other type, and any exception in the NonDeterministic DECIDE stage, propagate
out of the stage executor. -/
theorem c4_mcp_errors_inlined_amended :
    (∀ (h : HandlerOracle) (cl : Clients) (abilities : List Ability)
       (ctx : Dict) (acc : List Dict) (s : AgentState) (c : Nat),
       onlyMCPFailures h cl abilities →
       (∃ res, (detLoop h cl abilities ctx acc s c).1 = .ok res ∧
          res.length = acc.length + abilities.length) ∧
       (∃ res, (payloadLoop h cl abilities ctx acc s c).1 = .ok res ∧
          res.length = acc.length + abilities.length) ∧
       (∃ res, (humanLoop h cl abilities ctx acc s c).1 = .ok res ∧
          res.length = acc.length + abilities.length)) ∧
    (∃ r2, (execute_stage mcpBoomOracle connectedClients "UNDERSTAND" {} 0).1 =
       .ok ⟨"UNDERSTAND", [errorResult "boom" "parse_request_text", r2],
         "completed"⟩) ∧
    (execute_stage mcpBoomDecideOracle connectedClients "DECIDE" {} 0).1 =
      .error (.mcpClientError "boom") := by
  refine ⟨?_, ⟨_, rfl⟩, rfl⟩
  intro h cl abilities ctx acc s c hH
  exact ⟨detLoop_completes h cl abilities ctx acc s c hH,
    payloadLoop_completes h cl abilities ctx acc s c hH,
    humanLoop_completes h cl abilities ctx acc s c hH⟩

/-- Witness for the amended C4 at the UNDERSTAND ability list with the real
handlers (which never raise anything but `MCPClientError`). -/
theorem c4_amended_witness :
    ∃ res, (detLoop realHandlers connectedClients
      [⟨"parse_request_text", .common,
          "Convert unstructured request to structured data"⟩,
       ⟨"extract_entities", .atlas, "Identify product, account, dates"⟩]
      (buildContext {}) [] {} 0).1 = .ok res ∧ res.length = 0 + 2 :=
  ((c4_mcp_errors_inlined_amended.1 realHandlers connectedClients _
    (buildContext {}) [] {} 0
    (fun ab _ ctx' n m =>
      execute_ability_realHandlers_no_pythonError _ ab ctx' n m)).1)

/-! ## DECIDE-stage choreography lemmas -/

theorem addSolutionsLoop_solutions (l : List Val) :
    ∀ (s : AgentState) (c : Nat),
      (addSolutionsLoop s c l).1.solutions = s.solutions ++ l.map asDict := by
  induction l with
  | nil => intro s c; simp [addSolutionsLoop]
  | cons v rest ih =>
    intro s c
    rw [show addSolutionsLoop s c (v :: rest) =
      addSolutionsLoop (add_solution s c (asDict v)
        (asNum (dget (asDict v) "score" (.vNum 0)))) (c + 1) rest from rfl]
    rw [ih]
    simp [add_solution, log_event]

theorem addSolutionsLoop_scores (l : List Val) :
    ∀ (s : AgentState) (c : Nat),
      (addSolutionsLoop s c l).1.solution_scores = s.solution_scores ++
        l.map (fun v => asNum (dget (asDict v) "score" (.vNum 0))) := by
  induction l with
  | nil => intro s c; simp [addSolutionsLoop]
  | cons v rest ih =>
    intro s c
    rw [show addSolutionsLoop s c (v :: rest) =
      addSolutionsLoop (add_solution s c (asDict v)
        (asNum (dget (asDict v) "score" (.vNum 0)))) (c + 1) rest from rfl]
    rw [ih]
    simp [add_solution, log_event]

/-- C2: running the DECIDE stage on a state with no solutions yet, with
`solution_evaluation` returning an arbitrary solution list `S`, the stage (1)
sets the state's escalation flag to true iff the best appended score is
strictly below 90, (2) records exactly the scores of `S`, (3) reports the
same flag in the exported final payload, and (4) the `escalation_decision`
result record carries that flag and a priority tag that is "high" iff the
best score is strictly below 70 and "medium" otherwise. -/
theorem c2_escalation_iff_best_below_90 (S : List Dict) (s : AgentState)
    (c : Nat) (h1 : s.solutions = []) (h2 : s.solution_scores = []) :
    ((decideRun S s c).2.1.escalation_required = true ↔
      pyMaxOr0 (scoresOf S) < 90) ∧
    (decideRun S s c).2.1.solution_scores = scoresOf S ∧
    ((exportFinalPayload (decideRun S s c).2.1).decisions.escalation_required
        = true ↔ pyMaxOr0 (scoresOf S) < 90) ∧
    ∃ r1 r2 r3,
      (decideRun S s c).1 = .ok ⟨"DECIDE", [r1, r2, r3], "completed"⟩ ∧
      dget (asDict (dget r2 "escalation_decision" (.vDict [])))
          "escalation_required" (.vBool false) =
        .vBool (decide (pyMaxOr0 (scoresOf S) < 90)) ∧
      dget (asDict (dget r2 "escalation_decision" (.vDict [])))
          "priority" (.vStr "") =
        .vStr (if pyMaxOr0 (scoresOf S) < 70 then "high" else "medium") := by
  have hsol : (update_stage s c "DECIDE").solutions = [] := by
    unfold update_stage log_event
    split <;> exact h1
  have hscores : (update_stage s c "DECIDE").solution_scores = [] := by
    unfold update_stage log_event
    split <;> exact h2
  have hdv : ∀ d : Dict, asDict (.vDict d) = d := fun d => rfl
  have hA : (decideRun S s c).2.1.escalation_required =
      decide (pyMaxOr0 (scoresOf S) < 90) := by
    have hred : (decideRun S s c).2.1.escalation_required =
        asBool (dget (asDict (dget
          (handle_escalation_decision (buildContext
            (addSolutionsLoop (update_stage s c "DECIDE") (c + 2)
              (S.map .vDict)).1))
          "escalation_decision" (.vDict [])))
          "escalation_required" (.vBool false)) := rfl
    rw [hred]
    simp [handle_escalation_decision, buildContext, dget, dlookup, asList,
      asBool, addSolutionsLoop_solutions, hsol, scoresOf, List.map_map,
      Function.comp_def, hdv]
  refine ⟨?_, ?_, ?_, ?_⟩
  · rw [hA]
    simp
  · have hred : (decideRun S s c).2.1.solution_scores =
        (addSolutionsLoop (update_stage s c "DECIDE") (c + 2)
          (S.map .vDict)).1.solution_scores := rfl
    rw [hred, addSolutionsLoop_scores, hscores]
    simp [scoresOf, List.map_map, Function.comp_def, hdv]
  · show (decideRun S s c).2.1.escalation_required = true ↔ _
    rw [hA]
    simp
  · refine ⟨_, _, _, rfl, ?_, ?_⟩
    · simp [handle_escalation_decision, buildContext, dget, dlookup, asList,
        asBool, addSolutionsLoop_solutions, hsol, scoresOf, List.map_map,
        Function.comp_def, hdv]
    · simp [handle_escalation_decision, buildContext, dget, dlookup, asList,
        addSolutionsLoop_solutions, hsol, scoresOf, List.map_map,
        Function.comp_def, hdv]

/-- Witness for C2: a single solution scoring 95 does not trigger escalation
(and one scoring 60 does). -/
theorem c2_escalation_witness :
    (decideRun [[("score", .vNum 95)]] {} 0).2.1.escalation_required = false ∧
    (decideRun [[("score", .vNum 60)]] {} 0).2.1.escalation_required = true := by
  constructor
  · have h := (c2_escalation_iff_best_below_90 [[("score", .vNum 95)]] {} 0
      rfl rfl).1
    rw [show pyMaxOr0 (scoresOf [[("score", .vNum 95)]]) = 95 from rfl] at h
    cases hx : (decideRun [[("score", .vNum 95)]] {} 0).2.1.escalation_required
    · rfl
    · exact absurd (h.mp hx) (by decide)
  · have h := (c2_escalation_iff_best_below_90 [[("score", .vNum 60)]] {} 0
      rfl rfl).1
    rw [show pyMaxOr0 (scoresOf [[("score", .vNum 60)]]) = 60 from rfl] at h
    exact h.mpr (by decide)

/-- C1 (falsified by the code): on a valid request input, the full 11-stage
workflow exports `stages_completed` with 12 entries — the stage INTAKE appears
twice, because `AgentState.current_stage` is born as "INTAKE" and
`update_stage` pushes the pre-existing current stage into the history on the
very first stage as well. -/
theorem c1_stages_completed_duplicate_intake :
    (runWorkflow realHandlers sampleInput).processing.stages_completed =
      "INTAKE" :: fixedStageOrder ∧
    ((runWorkflow realHandlers sampleInput).processing.stages_completed.count
      "INTAKE" = 2) ∧
    (runWorkflow realHandlers sampleInput).processing.stages_completed ≠
      fixedStageOrder := by decide

end SupportAgent
